import Mathlib

/-!
Verification of the environmental-value synthesis engine
(envpredictor/predictor.py) against its natural-language specification.

The Python source is shallowly embedded: latitudes and longitudes are
rationals (all geographic rule constants are decimal literals), all
derived sensor arithmetic is over the reals, the pseudo-random noise of
add_sensor_noise is modelled by an explicit draw of unit deviates
(uniform(-s, s) = u * s with |u| <= 1), and the opaque Keras model is a
parameter (a function from the input patch to the two output fields).
-/

namespace EnvPredictor

/-- The ten region categories of envpredictor/region.py. -/
inductive RegionType where
  | OCEAN
  | COASTAL
  | FOREST_TROPICAL
  | FOREST_TEMPERATE
  | GRASSLAND
  | DESERT
  | TUNDRA
  | URBAN
  | MOUNTAIN
  | AGRICULTURAL
deriving DecidableEq

/-- Ocean band rule (first rule of _determine_region_type). -/
abbrev ocean_cond (lat lon : ℚ) : Prop :=
  |lat| < 30 ∧ ((0 < lon ∧ lon < 20) ∨ (60 < lon ∧ lon < 100) ∨
    (140 < lon ∧ lon < 180) ∨ (-140 < lon ∧ lon < -60) ∨ (-20 < lon ∧ lon < 0))

/-- Desert band rule (second rule of _determine_region_type). -/
abbrev desert_cond (lat lon : ℚ) : Prop :=
  (15 < lat ∧ lat < 35 ∧ -120 < lon ∧ lon < -80) ∨
  (15 < lat ∧ lat < 30 ∧ -10 < lon ∧ lon < 50) ∨
  (20 < lat ∧ lat < 35 ∧ 50 < lon ∧ lon < 80) ∨
  (-30 < lat ∧ lat < -15 ∧ 115 < lon ∧ lon < 150) ∨
  (-30 < lat ∧ lat < -15 ∧ -80 < lon ∧ lon < -60)

/-- Tropical forest band rule. -/
abbrev forest_tropical_cond (lat lon : ℚ) : Prop :=
  (-10 < lat ∧ lat < 10 ∧ -80 < lon ∧ lon < -50) ∨
  (-10 < lat ∧ lat < 10 ∧ 10 < lon ∧ lon < 40) ∨
  (-10 < lat ∧ lat < 10 ∧ 90 < lon ∧ lon < 150)

/-- Temperate forest band rule. -/
abbrev forest_temperate_cond (lat lon : ℚ) : Prop :=
  (40 < lat ∧ lat < 60 ∧ -10 < lon ∧ lon < 30) ∨
  (40 < lat ∧ lat < 60 ∧ -130 < lon ∧ lon < -70) ∨
  (30 < lat ∧ lat < 50 ∧ 120 < lon ∧ lon < 150)

/-- Polar tundra rule. -/
abbrev tundra_cond (lat _lon : ℚ) : Prop := lat > 60 ∨ lat < -60

/-- Mountain band rule. -/
abbrev mountain_cond (lat lon : ℚ) : Prop :=
  (35 < lat ∧ lat < 45 ∧ -120 < lon ∧ lon < -105) ∨
  (-35 < lat ∧ lat < -20 ∧ -75 < lon ∧ lon < -60) ∨
  (30 < lat ∧ lat < 40 ∧ 70 < lon ∧ lon < 90) ∨
  (45 < lat ∧ lat < 50 ∧ 5 < lon ∧ lon < 15)

/-- Coastal longitude band rule. -/
abbrev coastal_cond (lat lon : ℚ) : Prop :=
  |lon| < 10 ∨ |lon| > 170 ∨ (|lat| < 30 ∧ |lon| < 100 ∧ |lon| > 80)

/-- The fixed list of major-city centres used by the Urban rule. -/
def major_cities : List (ℚ × ℚ) :=
  [(40.7, -74.0), (51.5, -0.1), (35.7, 139.7), (19.1, 72.9),
   (34.1, -118.2), (41.9, 12.5), (-23.5, -46.6), (30.0, 31.2),
   (39.9, 116.4), (55.8, 37.6)]

/-- City box rule: within 1.0 degree latitude and 1.5 degrees longitude of
a major city centre. -/
abbrev city_cond (lat lon : ℚ) : Prop :=
  ∃ c ∈ major_cities, |lat - c.1| < 1 ∧ |lon - c.2| < 1.5

/-- Agricultural band rule. -/
abbrev agricultural_cond (lat lon : ℚ) : Prop :=
  (25 < lat ∧ lat < 50 ∧ -105 < lon ∧ lon < -75) ∨
  (45 < lat ∧ lat < 55 ∧ -5 < lon ∧ lon < 30) ∨
  (-40 < lat ∧ lat < -20 ∧ -65 < lon ∧ lon < -50) ∨
  (20 < lat ∧ lat < 40 ∧ 70 < lon ∧ lon < 100)

/-- _determine_region_type: the ordered first-match-wins rule cascade,
default fallback Grassland. -/
def determine_region_type (lat lon : ℚ) : RegionType :=
  if ocean_cond lat lon then .OCEAN
  else if desert_cond lat lon then .DESERT
  else if forest_tropical_cond lat lon then .FOREST_TROPICAL
  else if forest_temperate_cond lat lon then .FOREST_TEMPERATE
  else if tundra_cond lat lon then .TUNDRA
  else if mountain_cond lat lon then .MOUNTAIN
  else if coastal_cond lat lon then .COASTAL
  else if city_cond lat lon then .URBAN
  else if agricultural_cond lat lon then .AGRICULTURAL
  else .GRASSLAND

/-! ## Temporal features (_datetime_to_features) -/

/-- A parsed timestamp (year, month, day, hour, minute), as produced by
datetime.strptime on the "YYYYMMDD HH:MM" format. -/
structure DT where
  year : ℕ
  month : ℕ
  day : ℕ
  hour : ℕ
  minute : ℕ
deriving DecidableEq

/-- Gregorian leap year test, as used by Python's datetime. -/
def is_leap (y : ℕ) : Prop := (y % 4 = 0 ∧ y % 100 ≠ 0) ∨ y % 400 = 0

instance (y : ℕ) : Decidable (is_leap y) := by unfold is_leap; infer_instance

/-- Days in a month of a given year (Python calendar). -/
def days_in_month (y m : ℕ) : ℕ :=
  if m = 2 then (if is_leap y then 29 else 28)
  else if m = 4 ∨ m = 6 ∨ m = 9 ∨ m = 11 then 30
  else 31

/-- Day of year (tm_yday): days of the preceding months plus the day. -/
def day_of_year (y m d : ℕ) : ℕ :=
  (List.range (m - 1)).foldl (fun acc k => acc + days_in_month y (k + 1)) 0 + d

/-- year_progress = (tm_yday - 1) / 365. -/
noncomputable def year_progress (dt : DT) : ℝ :=
  ((day_of_year dt.year dt.month dt.day : ℝ) - 1) / 365

noncomputable def seasonal_sin (dt : DT) : ℝ := Real.sin (2 * Real.pi * year_progress dt)

noncomputable def seasonal_cos (dt : DT) : ℝ := Real.cos (2 * Real.pi * year_progress dt)

/-- diurnal_progress = (hour * 60 + minute) / (24 * 60). -/
noncomputable def diurnal_progress (dt : DT) : ℝ :=
  ((dt.hour * 60 + dt.minute : ℕ) : ℝ) / (24 * 60)

noncomputable def diurnal_sin (dt : DT) : ℝ := Real.sin (2 * Real.pi * diurnal_progress dt)

noncomputable def diurnal_cos (dt : DT) : ℝ := Real.cos (2 * Real.pi * diurnal_progress dt)

inductive Season where
  | spring | summer | fall | winter
deriving DecidableEq

inductive TimeOfDay where
  | morning | afternoon | evening | night
deriving DecidableEq

/-- Season label from the month (3-5 spring, 6-8 summer, 9-11 fall, else winter). -/
def season_of (month : ℕ) : Season :=
  if 3 ≤ month ∧ month ≤ 5 then .spring
  else if 6 ≤ month ∧ month ≤ 8 then .summer
  else if 9 ≤ month ∧ month ≤ 11 then .fall
  else .winter

/-- Time-of-day label from the hour (5-10 morning, 11-15 afternoon,
16-20 evening, else night). -/
def time_of_day_of (hour : ℕ) : TimeOfDay :=
  if 5 ≤ hour ∧ hour < 11 then .morning
  else if 11 ≤ hour ∧ hour < 16 then .afternoon
  else if 16 ≤ hour ∧ hour < 21 then .evening
  else .night

/-! ## Regional baseline values and adjustment tables -/

/-- The nine per-region baseline sensor values (regional_base_values entry). -/
structure BaseValues where
  temperature : ℝ
  humidity : ℝ
  pressure : ℝ
  gas_resistance : ℝ
  CO2 : ℝ
  VOC : ℝ
  PM1_0 : ℝ
  PM2_5 : ℝ
  PM10 : ℝ

/-- regional_base_values table. -/
noncomputable def regional_base_values : RegionType → BaseValues
  | .OCEAN => ⟨18.0, 85.0, 1013.25, 80000.0, 410.0, 80.0, 2.0, 3.0, 4.0⟩
  | .COASTAL => ⟨22.0, 75.0, 1013.0, 60000.0, 420.0, 120.0, 5.0, 8.0, 10.0⟩
  | .FOREST_TROPICAL => ⟨26.0, 85.0, 1012.0, 50000.0, 430.0, 200.0, 4.0, 6.0, 8.0⟩
  | .FOREST_TEMPERATE => ⟨18.0, 70.0, 1013.0, 55000.0, 425.0, 150.0, 3.0, 5.0, 7.0⟩
  | .GRASSLAND => ⟨20.0, 60.0, 1013.0, 50000.0, 420.0, 100.0, 4.0, 6.0, 9.0⟩
  | .DESERT => ⟨30.0, 20.0, 1012.0, 30000.0, 415.0, 50.0, 10.0, 25.0, 50.0⟩
  | .TUNDRA => ⟨-5.0, 70.0, 1015.0, 70000.0, 410.0, 30.0, 2.0, 3.0, 4.0⟩
  | .URBAN => ⟨24.0, 65.0, 1012.0, 40000.0, 450.0, 300.0, 10.0, 20.0, 30.0⟩
  | .MOUNTAIN => ⟨12.0, 60.0, 900.0, 60000.0, 415.0, 80.0, 3.0, 5.0, 7.0⟩
  | .AGRICULTURAL => ⟨22.0, 65.0, 1013.0, 45000.0, 435.0, 180.0, 6.0, 12.0, 15.0⟩

/-- seasonal_params[season].temp_shift[region]. -/
noncomputable def season_temp_shift : Season → RegionType → ℝ
  | .summer, .OCEAN => 2.0 | .summer, .COASTAL => 4.0
  | .summer, .FOREST_TROPICAL => 1.0 | .summer, .FOREST_TEMPERATE => 6.0
  | .summer, .GRASSLAND => 8.0 | .summer, .DESERT => 12.0
  | .summer, .TUNDRA => 10.0 | .summer, .URBAN => 5.0
  | .summer, .MOUNTAIN => 4.0 | .summer, .AGRICULTURAL => 6.0
  | .winter, .OCEAN => -1.0 | .winter, .COASTAL => -3.0
  | .winter, .FOREST_TROPICAL => 0.0 | .winter, .FOREST_TEMPERATE => -8.0
  | .winter, .GRASSLAND => -10.0 | .winter, .DESERT => -5.0
  | .winter, .TUNDRA => -25.0 | .winter, .URBAN => -4.0
  | .winter, .MOUNTAIN => -6.0 | .winter, .AGRICULTURAL => -5.0
  | .spring, .OCEAN => 1.0 | .spring, .COASTAL => 2.0
  | .spring, .FOREST_TROPICAL => 0.5 | .spring, .FOREST_TEMPERATE => 3.0
  | .spring, .GRASSLAND => 4.0 | .spring, .DESERT => 6.0
  | .spring, .TUNDRA => 5.0 | .spring, .URBAN => 2.0
  | .spring, .MOUNTAIN => 2.0 | .spring, .AGRICULTURAL => 3.0
  | .fall, .OCEAN => 0.5 | .fall, .COASTAL => 1.0
  | .fall, .FOREST_TROPICAL => 0.5 | .fall, .FOREST_TEMPERATE => 2.0
  | .fall, .GRASSLAND => 3.0 | .fall, .DESERT => 4.0
  | .fall, .TUNDRA => 2.0 | .fall, .URBAN => 1.0
  | .fall, .MOUNTAIN => 1.0 | .fall, .AGRICULTURAL => 2.0

/-- seasonal_params[season].humidity_shift[region]. -/
noncomputable def season_humidity_shift : Season → RegionType → ℝ
  | .summer, .OCEAN => 5.0 | .summer, .COASTAL => 10.0
  | .summer, .FOREST_TROPICAL => 5.0 | .summer, .FOREST_TEMPERATE => 15.0
  | .summer, .GRASSLAND => -10.0 | .summer, .DESERT => -5.0
  | .summer, .TUNDRA => 20.0 | .summer, .URBAN => 5.0
  | .summer, .MOUNTAIN => 5.0 | .summer, .AGRICULTURAL => 8.0
  | .winter, .OCEAN => 0.0 | .winter, .COASTAL => 5.0
  | .winter, .FOREST_TROPICAL => 0.0 | .winter, .FOREST_TEMPERATE => -5.0
  | .winter, .GRASSLAND => -5.0 | .winter, .DESERT => -3.0
  | .winter, .TUNDRA => -10.0 | .winter, .URBAN => -5.0
  | .winter, .MOUNTAIN => -5.0 | .winter, .AGRICULTURAL => -3.0
  | .spring, .OCEAN => 2.0 | .spring, .COASTAL => 8.0
  | .spring, .FOREST_TROPICAL => 3.0 | .spring, .FOREST_TEMPERATE => 10.0
  | .spring, .GRASSLAND => 5.0 | .spring, .DESERT => 2.0
  | .spring, .TUNDRA => 15.0 | .spring, .URBAN => 3.0
  | .spring, .MOUNTAIN => 3.0 | .spring, .AGRICULTURAL => 5.0
  | .fall, .OCEAN => 1.0 | .fall, .COASTAL => 5.0
  | .fall, .FOREST_TROPICAL => 2.0 | .fall, .FOREST_TEMPERATE => 8.0
  | .fall, .GRASSLAND => 3.0 | .fall, .DESERT => 1.0
  | .fall, .TUNDRA => 10.0 | .fall, .URBAN => 2.0
  | .fall, .MOUNTAIN => 2.0 | .fall, .AGRICULTURAL => 3.0

/-- seasonal_params[season].pollution_factor[region]. -/
noncomputable def season_pollution_factor : Season → RegionType → ℝ
  | .summer, .OCEAN => 1.1 | .summer, .COASTAL => 1.2
  | .summer, .FOREST_TROPICAL => 1.1 | .summer, .FOREST_TEMPERATE => 1.1
  | .summer, .GRASSLAND => 1.3 | .summer, .DESERT => 1.5
  | .summer, .TUNDRA => 1.0 | .summer, .URBAN => 1.4
  | .summer, .MOUNTAIN => 1.1 | .summer, .AGRICULTURAL => 1.3
  | .winter, .OCEAN => 1.0 | .winter, .COASTAL => 1.1
  | .winter, .FOREST_TROPICAL => 1.0 | .winter, .FOREST_TEMPERATE => 1.2
  | .winter, .GRASSLAND => 1.4 | .winter, .DESERT => 1.2
  | .winter, .TUNDRA => 1.5 | .winter, .URBAN => 1.6
  | .winter, .MOUNTAIN => 1.3 | .winter, .AGRICULTURAL => 1.4
  | .spring, .OCEAN => 1.0 | .spring, .COASTAL => 1.1
  | .spring, .FOREST_TROPICAL => 1.0 | .spring, .FOREST_TEMPERATE => 1.1
  | .spring, .GRASSLAND => 1.2 | .spring, .DESERT => 1.3
  | .spring, .TUNDRA => 1.1 | .spring, .URBAN => 1.3
  | .spring, .MOUNTAIN => 1.1 | .spring, .AGRICULTURAL => 1.2
  | .fall, .OCEAN => 1.0 | .fall, .COASTAL => 1.1
  | .fall, .FOREST_TROPICAL => 1.0 | .fall, .FOREST_TEMPERATE => 1.2
  | .fall, .GRASSLAND => 1.3 | .fall, .DESERT => 1.4
  | .fall, .TUNDRA => 1.2 | .fall, .URBAN => 1.4
  | .fall, .MOUNTAIN => 1.2 | .fall, .AGRICULTURAL => 1.3

/-- diurnal_params[time_of_day].temp_shift[region]. -/
noncomputable def diurnal_temp_shift : TimeOfDay → RegionType → ℝ
  | .morning, .OCEAN => -0.5 | .morning, .COASTAL => -1.0
  | .morning, .FOREST_TROPICAL => -0.5 | .morning, .FOREST_TEMPERATE => -1.5
  | .morning, .GRASSLAND => -2.0 | .morning, .DESERT => -3.0
  | .morning, .TUNDRA => -1.0 | .morning, .URBAN => -1.0
  | .morning, .MOUNTAIN => -1.5 | .morning, .AGRICULTURAL => -1.5
  | .afternoon, .OCEAN => 1.0 | .afternoon, .COASTAL => 3.0
  | .afternoon, .FOREST_TROPICAL => 2.0 | .afternoon, .FOREST_TEMPERATE => 4.0
  | .afternoon, .GRASSLAND => 6.0 | .afternoon, .DESERT => 10.0
  | .afternoon, .TUNDRA => 3.0 | .afternoon, .URBAN => 4.0
  | .afternoon, .MOUNTAIN => 3.0 | .afternoon, .AGRICULTURAL => 5.0
  | .evening, .OCEAN => 0.5 | .evening, .COASTAL => 1.0
  | .evening, .FOREST_TROPICAL => 0.5 | .evening, .FOREST_TEMPERATE => 1.0
  | .evening, .GRASSLAND => 2.0 | .evening, .DESERT => 3.0
  | .evening, .TUNDRA => 1.0 | .evening, .URBAN => 1.0
  | .evening, .MOUNTAIN => 1.0 | .evening, .AGRICULTURAL => 1.5
  | .night, .OCEAN => -1.0 | .night, .COASTAL => -2.0
  | .night, .FOREST_TROPICAL => -1.0 | .night, .FOREST_TEMPERATE => -3.0
  | .night, .GRASSLAND => -4.0 | .night, .DESERT => -8.0
  | .night, .TUNDRA => -2.0 | .night, .URBAN => -2.0
  | .night, .MOUNTAIN => -3.0 | .night, .AGRICULTURAL => -3.0

/-- diurnal_params[time_of_day].humidity_shift[region]. -/
noncomputable def diurnal_humidity_shift : TimeOfDay → RegionType → ℝ
  | .morning, .OCEAN => 5.0 | .morning, .COASTAL => 10.0
  | .morning, .FOREST_TROPICAL => 5.0 | .morning, .FOREST_TEMPERATE => 10.0
  | .morning, .GRASSLAND => 15.0 | .morning, .DESERT => 10.0
  | .morning, .TUNDRA => 5.0 | .morning, .URBAN => 8.0
  | .morning, .MOUNTAIN => 10.0 | .morning, .AGRICULTURAL => 12.0
  | .afternoon, .OCEAN => -5.0 | .afternoon, .COASTAL => -10.0
  | .afternoon, .FOREST_TROPICAL => -5.0 | .afternoon, .FOREST_TEMPERATE => -10.0
  | .afternoon, .GRASSLAND => -15.0 | .afternoon, .DESERT => -5.0
  | .afternoon, .TUNDRA => -5.0 | .afternoon, .URBAN => -10.0
  | .afternoon, .MOUNTAIN => -10.0 | .afternoon, .AGRICULTURAL => -12.0
  | .evening, .OCEAN => 3.0 | .evening, .COASTAL => 8.0
  | .evening, .FOREST_TROPICAL => 3.0 | .evening, .FOREST_TEMPERATE => 8.0
  | .evening, .GRASSLAND => 10.0 | .evening, .DESERT => 5.0
  | .evening, .TUNDRA => 3.0 | .evening, .URBAN => 5.0
  | .evening, .MOUNTAIN => 5.0 | .evening, .AGRICULTURAL => 8.0
  | .night, .OCEAN => 8.0 | .night, .COASTAL => 15.0
  | .night, .FOREST_TROPICAL => 8.0 | .night, .FOREST_TEMPERATE => 15.0
  | .night, .GRASSLAND => 20.0 | .night, .DESERT => 15.0
  | .night, .TUNDRA => 10.0 | .night, .URBAN => 12.0
  | .night, .MOUNTAIN => 15.0 | .night, .AGRICULTURAL => 18.0

/-- diurnal_params[time_of_day].pollution_factor[region]. -/
noncomputable def diurnal_pollution_factor : TimeOfDay → RegionType → ℝ
  | .morning, .OCEAN => 1.0 | .morning, .COASTAL => 1.1
  | .morning, .FOREST_TROPICAL => 1.0 | .morning, .FOREST_TEMPERATE => 1.1
  | .morning, .GRASSLAND => 1.2 | .morning, .DESERT => 1.3
  | .morning, .TUNDRA => 1.0 | .morning, .URBAN => 1.3
  | .morning, .MOUNTAIN => 1.1 | .morning, .AGRICULTURAL => 1.2
  | .afternoon, .OCEAN => 1.0 | .afternoon, .COASTAL => 1.0
  | .afternoon, .FOREST_TROPICAL => 1.0 | .afternoon, .FOREST_TEMPERATE => 1.0
  | .afternoon, .GRASSLAND => 1.1 | .afternoon, .DESERT => 1.2
  | .afternoon, .TUNDRA => 1.0 | .afternoon, .URBAN => 1.2
  | .afternoon, .MOUNTAIN => 1.0 | .afternoon, .AGRICULTURAL => 1.1
  | .evening, .OCEAN => 1.1 | .evening, .COASTAL => 1.2
  | .evening, .FOREST_TROPICAL => 1.1 | .evening, .FOREST_TEMPERATE => 1.2
  | .evening, .GRASSLAND => 1.3 | .evening, .DESERT => 1.4
  | .evening, .TUNDRA => 1.1 | .evening, .URBAN => 1.4
  | .evening, .MOUNTAIN => 1.2 | .evening, .AGRICULTURAL => 1.3
  | .night, .OCEAN => 0.9 | .night, .COASTAL => 0.9
  | .night, .FOREST_TROPICAL => 0.9 | .night, .FOREST_TEMPERATE => 0.9
  | .night, .GRASSLAND => 0.9 | .night, .DESERT => 0.8
  | .night, .TUNDRA => 0.9 | .night, .URBAN => 1.0
  | .night, .MOUNTAIN => 0.9 | .night, .AGRICULTURAL => 0.9

/-- _apply_temporal_adjustments: additive season + diurnal shifts for
temperature (scaled by 1 + 0.1 * seasonal_sin) and humidity (clamped to
[10, 100]), multiplicative season * diurnal pollution factor for the
pollutants, with extra Urban-conditional multipliers on VOC, PM2.5, PM10. -/
noncomputable def apply_temporal_adjustments (base : BaseValues) (dt : DT)
    (region : RegionType) : BaseValues :=
  let season := season_of dt.month
  let tod := time_of_day_of dt.hour
  let temp_shift := season_temp_shift season region + diurnal_temp_shift tod region
  let humidity_shift := season_humidity_shift season region + diurnal_humidity_shift tod region
  let pollution_factor := season_pollution_factor season region * diurnal_pollution_factor tod region
  { base with
    temperature := base.temperature + temp_shift * (1 + 0.1 * seasonal_sin dt)
    humidity := min 100 (max 10 (base.humidity + humidity_shift))
    CO2 := base.CO2 * pollution_factor
    VOC := base.VOC * (pollution_factor * (if region = .URBAN then 1.2 else 1.1))
    PM1_0 := base.PM1_0 * pollution_factor
    PM2_5 := base.PM2_5 * (pollution_factor * (if region = .URBAN then 1.3 else 1.2))
    PM10 := base.PM10 * (pollution_factor * (if region = .URBAN then 1.4 else 1.2)) }

/-! ## Elevation and the synthetic tensor generator -/

/-- The elevation assigned to each region by _get_elevation. -/
noncomputable def elevation_of_region : RegionType → ℝ
  | .MOUNTAIN => 2500.0
  | .TUNDRA => 200.0
  | .OCEAN => -50.0
  | _ => 100.0

/-- _get_elevation: a step function of the region. -/
noncomputable def get_elevation (lat lon : ℚ) : ℝ :=
  elevation_of_region (determine_region_type lat lon)

/-- elevation_factor = 1 - min(1, elevation / 5000). -/
noncomputable def elevation_factor (lat lon : ℚ) : ℝ :=
  1 - min 1 (get_elevation lat lon / 5000)

/-- np.clip(x, lo, hi). -/
noncomputable def clip (x lo hi : ℝ) : ℝ := min hi (max lo x)

/-- The k-th value of np.linspace(-1, 1, 128). -/
noncomputable def linspace128 (k : ℕ) : ℝ := -1 + 2 * k / 127

/-- The normalized radial distance of pixel (i, j):
sqrt(x_j^2 + y_i^2) / sqrt(2), for the meshgrid of linspace(-1, 1, 128). -/
noncomputable def pixel_dist (i j : ℕ) : ℝ :=
  Real.sqrt (linspace128 j ^ 2 + linspace128 i ^ 2) / Real.sqrt 2

/-- The region-specific shape function of _generate_synthetic_patch. -/
noncomputable def shape_pattern (region : RegionType) (d : ℝ) : ℝ :=
  match region with
  | .OCEAN => 0.3 + 0.7 * Real.exp (-d * 3)
  | .DESERT => 0.5 + 0.5 * Real.sin (d * 10)
  | .URBAN => 0.4 + 0.6 * (1 - d ^ 2)
  | _ => max 0.2 (Real.exp (-d * 2))

/-- Region-specific multiplier on the seasonal effect amplitude. -/
noncomputable def seasonal_effect_mult : RegionType → ℝ
  | .OCEAN => 0.7
  | .DESERT => 1.2
  | .URBAN => 0.9
  | _ => 1

/-- Region-specific multiplier on the diurnal effect amplitude. -/
noncomputable def diurnal_effect_mult : RegionType → ℝ
  | .OCEAN => 0.5
  | .DESERT => 1.5
  | .URBAN => 1.2
  | _ => 1

/-- One element of the clipped, elevation-attenuated pattern field of
_generate_synthetic_patch (the final, unweighted frame of the tensor):
clip(pattern * (1 + seasonal_effect) * (1 + diurnal_effect * 0.5), 0.1, 1.0)
multiplied afterwards by the elevation factor. -/
noncomputable def patch_value (lat lon : ℚ) (dt : DT) (i j : ℕ) : ℝ :=
  let region := determine_region_type lat lon
  let seasonal_effect := seasonal_effect_mult region *
    (0.5 * seasonal_sin dt + 0.2 * seasonal_cos dt)
  let diurnal_effect := diurnal_effect_mult region *
    (0.3 * diurnal_sin dt + 0.1 * diurnal_cos dt)
  clip (shape_pattern region (pixel_dist i j) * (1 + seasonal_effect) *
    (1 + diurnal_effect * 0.5)) 0.1 1.0 * elevation_factor lat lon

/-- A pixel position in the 128 x 128 grid. -/
abbrev Pixel := Fin 128 × Fin 128

/-- A single-channel 128 x 128 field. -/
abbrev Field128 := Pixel → ℝ

/-- The three temporal frame weights (0.85, 0.93, 1.0). -/
noncomputable def frame_weight (k : Fin 3) : ℝ :=
  if k = 0 then 0.85 else if k = 1 then 0.93 else 1

/-- The full input tensor of shape [3, 128, 128(, 1)]. -/
abbrev Patch := Fin 3 → Field128

/-- generate_synthetic_patch: the three weighted copies of the pattern field. -/
noncomputable def generate_synthetic_patch (lat lon : ℚ) (dt : DT) : Patch :=
  fun k p => frame_weight k * patch_value lat lon dt p.1.val p.2.val

/-! ## Predictive model adapter -/

/-- The opaque model: input patch to (mean field, uncertainty field). -/
abbrev Model := Patch → Field128 × Field128

noncomputable def mean_field (f : Field128) : ℝ := (∑ p : Pixel, f p) / (128 * 128)

noncomputable def min_field (f : Field128) : ℝ :=
  Finset.univ.inf' Finset.univ_nonempty f

noncomputable def max_field (f : Field128) : ℝ :=
  Finset.univ.sup' Finset.univ_nonempty f

/-- normalized_mean = (mean - min) / (max - min + 1e-7). -/
noncomputable def normalized_activity (f : Field128) : ℝ :=
  (mean_field f - min_field f) / (max_field f - min_field f + 1e-7)

/-! ## Value synthesis engine -/

/-- sigmoid_scale(base, factor, range_scale, steepness). -/
noncomputable def sigmoid_scale (base factor range_scale steepness : ℝ) : ℝ :=
  base + (2 * range_scale) / (1 + Real.exp (-steepness * (factor - 0.5)))

/-- exp_scale(base, factor, range_scale). -/
noncomputable def exp_scale (base factor range_scale : ℝ) : ℝ :=
  base + range_scale * (Real.exp (3 * factor) / Real.exp 3)

/-- add_sensor_noise with the uniform draw made explicit: uniform(-s, s) is
u * s for a unit deviate u with |u| <= 1, s = max(|value| * relative_scale,
absolute_min_noise). -/
noncomputable def add_sensor_noise (value u relative_scale absolute_min_noise : ℝ) : ℝ :=
  value + u * max (|value| * relative_scale) absolute_min_noise

/-- One unit deviate per noised output field of _calculate_enhanced_values. -/
structure NoiseDraw where
  uTempB : ℝ
  uHum : ℝ
  uPress : ℝ
  uGas : ℝ
  uTempM : ℝ
  uCO2 : ℝ
  uVOC : ℝ
  uPM1 : ℝ
  uPM25 : ℝ
  uPM10 : ℝ

/-- The random contract of random.uniform(-s, s): every unit deviate lies
in [-1, 1]. -/
def ValidDraw (d : NoiseDraw) : Prop :=
  |d.uTempB| ≤ 1 ∧ |d.uHum| ≤ 1 ∧ |d.uPress| ≤ 1 ∧ |d.uGas| ≤ 1 ∧ |d.uTempM| ≤ 1 ∧
  |d.uCO2| ≤ 1 ∧ |d.uVOC| ≤ 1 ∧ |d.uPM1| ≤ 1 ∧ |d.uPM25| ≤ 1 ∧ |d.uPM10| ≤ 1

/-- The zero draw: noise injection mocked to return 0. -/
noncomputable def zero_draw : NoiseDraw := ⟨0, 0, 0, 0, 0, 0, 0, 0, 0, 0⟩

/-- The synthesized sensor values (BME688 composite, MCP9808, pollutants). -/
structure SensorValues where
  bme_temperature : ℝ
  bme_humidity : ℝ
  bme_pressure : ℝ
  bme_gas_resistance : ℝ
  mcp_temperature : ℝ
  co2 : ℝ
  voc : ℝ
  pm1_0 : ℝ
  pm2_5 : ℝ
  pm10 : ℝ

/-- _calculate_enhanced_values. -/
noncomputable def calculate_enhanced_values (normalized_mean : ℝ) (adjusted : BaseValues)
    (draw : NoiseDraw) : SensorValues where
  bme_temperature :=
    add_sensor_noise (sigmoid_scale adjusted.temperature normalized_mean 15 5) draw.uTempB 0.01 0.1
  bme_humidity :=
    add_sensor_noise (min 100 (max 10 (adjusted.humidity + normalized_mean * 50))) draw.uHum 0.005 0.1
  bme_pressure :=
    add_sensor_noise (max 950 (min 1050 (adjusted.pressure - normalized_mean * 5))) draw.uPress 0.001 0.1
  bme_gas_resistance :=
    add_sensor_noise (exp_scale adjusted.gas_resistance normalized_mean 150000) draw.uGas 0.02 0.1
  mcp_temperature :=
    add_sensor_noise (sigmoid_scale adjusted.temperature normalized_mean 15 5) draw.uTempM 0.01 0.1
  co2 := add_sensor_noise (exp_scale adjusted.CO2 normalized_mean 600) draw.uCO2 0.02 1.0
  voc := add_sensor_noise (exp_scale adjusted.VOC normalized_mean 400) draw.uVOC 0.02 0.5
  pm1_0 := max 0 (add_sensor_noise (exp_scale adjusted.PM1_0 normalized_mean 25) draw.uPM1 0.05 0.1)
  pm2_5 := max 0 (add_sensor_noise (exp_scale adjusted.PM2_5 normalized_mean 30) draw.uPM25 0.05 0.1)
  pm10 := max 0 (add_sensor_noise (exp_scale adjusted.PM10 normalized_mean 40) draw.uPM10 0.05 0.1)

/-! ## Physical constraint applier -/

/-- _apply_physics_constraints: elevation-based temperature and pressure
corrections, then urban/rural calibration multipliers on the pollutants. -/
noncomputable def apply_physics_constraints (v : SensorValues) (lat lon : ℚ) : SensorValues :=
  let ef := elevation_factor lat lon
  let temp_adjustment := ef * 2.0
  let urban := determine_region_type lat lon = RegionType.URBAN
  { v with
    bme_temperature := v.bme_temperature - temp_adjustment
    mcp_temperature := v.mcp_temperature - temp_adjustment
    bme_pressure := v.bme_pressure * (1 - ef * 0.00012)
    co2 := v.co2 * (if urban then 1.1 else 1.0)
    voc := v.voc * (if urban then 1.2 else 1.0)
    pm1_0 := v.pm1_0 * (if urban then 1.3 else 1.0)
    pm2_5 := v.pm2_5 * (if urban then 1.3 else 1.0)
    pm10 := v.pm10 * (if urban then 1.3 else 1.0) }

/-! ## The predict pipeline -/

/-- The full per-request result record (sensor values plus metadata). -/
structure Results where
  values : SensorValues
  meta_season : Season
  meta_time_of_day : TimeOfDay
  meta_activity : ℝ
  meta_uncertainty : ℝ

/-- The success path of predict, after the timestamp has been parsed. -/
noncomputable def predict_ok (model : Model) (draw : NoiseDraw) (dt : DT)
    (lat lon : ℚ) : Results :=
  let patch := generate_synthetic_patch lat lon dt
  let out := model patch
  let nm := normalized_activity out.1
  let region := determine_region_type lat lon
  let base := regional_base_values region
  let adjusted := apply_temporal_adjustments base dt region
  let enhanced := calculate_enhanced_values nm adjusted draw
  let constrained := apply_physics_constraints enhanced lat lon
  { values := constrained
    meta_season := season_of dt.month
    meta_time_of_day := time_of_day_of dt.hour
    meta_activity := nm
    meta_uncertainty := mean_field out.2 }

/-! ## strptime("%Y%m%d %H:%M") and the public predict boundary

CPython's strptime compiles the format to a backtracking regex:
Y matches exactly four digits, m matches 1[0-2]|0[1-9]|[1-9],
d matches 3[01]|[12]d|0[1-9]|[1-9], H matches 2[0-3]|[0-1]d|d and
M matches [0-5]d|d (d standing for a digit), alternatives tried in
order with backtracking; the whole input must be consumed, and the
extracted numbers must then form a valid datetime (year at least 1,
day not exceeding the month length). -/

def digit_val (c : Char) : ℕ := c.toNat - 48

/-- The %Y directive: exactly four digits. -/
def year_matches (cs : List Char) : Option (ℕ × List Char) :=
  match cs with
  | c1 :: c2 :: c3 :: c4 :: r =>
    if c1.isDigit ∧ c2.isDigit ∧ c3.isDigit ∧ c4.isDigit then
      some (1000 * digit_val c1 + 100 * digit_val c2 + 10 * digit_val c3 + digit_val c4, r)
    else none
  | _ => none

/-- The %m directive alternatives, in regex order. -/
def month_matches (cs : List Char) : List (ℕ × List Char) :=
  (match cs with
   | '1' :: c :: r => if '0' ≤ c ∧ c ≤ '2' then [(10 + digit_val c, r)] else []
   | _ => []) ++
  (match cs with
   | '0' :: c :: r => if '1' ≤ c ∧ c ≤ '9' then [(digit_val c, r)] else []
   | _ => []) ++
  (match cs with
   | c :: r => if '1' ≤ c ∧ c ≤ '9' then [(digit_val c, r)] else []
   | _ => [])

/-- The %d directive alternatives, in regex order. -/
def day_matches (cs : List Char) : List (ℕ × List Char) :=
  (match cs with
   | '3' :: c :: r => if c = '0' ∨ c = '1' then [(30 + digit_val c, r)] else []
   | _ => []) ++
  (match cs with
   | c1 :: c2 :: r =>
     if ('1' ≤ c1 ∧ c1 ≤ '2') ∧ c2.isDigit then [(10 * digit_val c1 + digit_val c2, r)] else []
   | _ => []) ++
  (match cs with
   | '0' :: c :: r => if '1' ≤ c ∧ c ≤ '9' then [(digit_val c, r)] else []
   | _ => []) ++
  (match cs with
   | c :: r => if '1' ≤ c ∧ c ≤ '9' then [(digit_val c, r)] else []
   | _ => [])

/-- The %H directive alternatives, in regex order. -/
def hour_matches (cs : List Char) : List (ℕ × List Char) :=
  (match cs with
   | '2' :: c :: r => if '0' ≤ c ∧ c ≤ '3' then [(20 + digit_val c, r)] else []
   | _ => []) ++
  (match cs with
   | c1 :: c2 :: r =>
     if ('0' ≤ c1 ∧ c1 ≤ '1') ∧ c2.isDigit then [(10 * digit_val c1 + digit_val c2, r)] else []
   | _ => []) ++
  (match cs with
   | c :: r => if c.isDigit then [(digit_val c, r)] else []
   | _ => [])

/-- The %M directive alternatives, in regex order. -/
def minute_matches (cs : List Char) : List (ℕ × List Char) :=
  (match cs with
   | c1 :: c2 :: r =>
     if ('0' ≤ c1 ∧ c1 ≤ '5') ∧ c2.isDigit then [(10 * digit_val c1 + digit_val c2, r)] else []
   | _ => []) ++
  (match cs with
   | c :: r => if c.isDigit then [(digit_val c, r)] else []
   | _ => [])

/-- Backtracking match of the whole "%Y%m%d %H:%M" format against the
character list, requiring the input to be fully consumed. -/
def parse_format (cs : List Char) : Option DT :=
  match year_matches cs with
  | none => none
  | some (y, r1) =>
    (month_matches r1).findSome? fun mo =>
      (day_matches mo.2).findSome? fun d =>
        match d.2 with
        | ' ' :: r4 =>
          (hour_matches r4).findSome? fun h =>
            (match h.2 with
             | ':' :: r6 =>
               (minute_matches r6).findSome? fun mi =>
                 if mi.2 = [] then some ⟨y, mo.1, d.1, h.1, mi.1⟩ else none
             | _ => none)
        | _ => none

/-- The validation performed by the datetime constructor on the matched
numbers: the year is at least MINYEAR = 1 and the day fits the month. -/
def strptime_valid (dt : DT) : Prop :=
  1 ≤ dt.year ∧ dt.day ≤ days_in_month dt.year dt.month

instance (dt : DT) : Decidable (strptime_valid dt) := by
  unfold strptime_valid; infer_instance

/-- The default for an absent time string. -/
def default_time (time_str : Option String) : String :=
  match time_str with
  | some t => t
  | none => "00:00"

/-- datetime.strptime(date_str + " " + (time_str or "00:00"), "%Y%m%d %H:%M"),
returning none where Python raises ValueError. -/
def parse_datetime (date_str : String) (time_str : Option String) : Option DT :=
  match parse_format (String.data (date_str ++ " " ++ default_time time_str)) with
  | some dt => if strptime_valid dt then some dt else none
  | none => none

/-- The outcome of predict: a result record, or the tagged error value
(the Python dict with its 'error' and 'message' fields). -/
inductive PredictResult where
  | ok (result : Results)
  | error (err msg : String)

def parse_error_text : String := "time data does not match format"

def parse_error_message : String := "Invalid date/time format or input values"

/-- predict: parse the date/time strings; on success run the pipeline, on
failure return the tagged error value instead of raising. -/
noncomputable def predict (model : Model) (draw : NoiseDraw) (date_str : String)
    (lat lon : ℚ) (time_str : Option String) : PredictResult :=
  match parse_datetime date_str time_str with
  | some dt => .ok (predict_ok model draw dt lat lon)
  | none => .error parse_error_text parse_error_message

/-- The constant-zero model output, used to instantiate the opaque model at
concrete inputs. -/
noncomputable def zero_model : Model := fun _ => (fun _ => 0, fun _ => 0)

/-! ## Helper lemmas -/

set_option maxHeartbeats 1600000 in
theorem region_at_0_10 : determine_region_type 0 10 = RegionType.OCEAN := by
  norm_num [determine_region_type, ocean_cond, abs_lt, lt_abs]

set_option maxHeartbeats 1600000 in
theorem region_at_nyc : determine_region_type 40.7 (-74.0) = RegionType.FOREST_TEMPERATE := by
  norm_num [determine_region_type, ocean_cond, desert_cond, forest_tropical_cond,
    forest_temperate_cond, abs_lt, lt_abs]

set_option maxHeartbeats 1600000 in
theorem region_at_40_m110 : determine_region_type 40 (-110) = RegionType.MOUNTAIN := by
  norm_num [determine_region_type, ocean_cond, desert_cond, forest_tropical_cond,
    forest_temperate_cond, tundra_cond, mountain_cond, abs_lt, lt_abs]

theorem efactor_at_0_10 : elevation_factor 0 10 = 1.01 := by
  rw [elevation_factor, get_elevation, region_at_0_10]
  rw [show elevation_of_region RegionType.OCEAN = -50 by norm_num [elevation_of_region]]
  rw [show (-50 : ℝ) / 5000 = -0.01 by norm_num,
    min_eq_right (by norm_num : (-0.01 : ℝ) ≤ 1)]
  norm_num

theorem efactor_at_40_m110 : elevation_factor 40 (-110) = 0.5 := by
  rw [elevation_factor, get_elevation, region_at_40_m110]
  rw [show elevation_of_region RegionType.MOUNTAIN = 2500 by norm_num [elevation_of_region]]
  rw [show (2500 : ℝ) / 5000 = 0.5 by norm_num,
    min_eq_right (by norm_num : (0.5 : ℝ) ≤ 1)]
  norm_num

/-- The elevation factor is always between 0.5 (mountain, 2500 m) and 1.01
(ocean, -50 m). -/
theorem elevation_factor_bounds (lat lon : ℚ) :
    0.5 ≤ elevation_factor lat lon ∧ elevation_factor lat lon ≤ 1.01 := by
  have h4 : get_elevation lat lon = 2500 ∨ get_elevation lat lon = 200 ∨
      get_elevation lat lon = -50 ∨ get_elevation lat lon = 100 := by
    rw [get_elevation]
    rcases determine_region_type lat lon <;> norm_num [elevation_of_region]
  have hmin : ∀ x : ℝ, x ≤ 1 → min 1 x = x := fun x hx => min_eq_right hx
  rcases h4 with h | h | h | h <;> rw [elevation_factor, h] <;>
    rw [hmin _ (by norm_num)] <;> constructor <;> norm_num

set_option maxRecDepth 4000 in
theorem card_pixel : (Finset.univ : Finset Pixel).card = 128 * 128 := by
  rw [Finset.card_univ]
  rw [Fintype.card_prod, Fintype.card_fin]

theorem min_field_le_mean_field (f : Field128) : min_field f ≤ mean_field f := by
  have h : ∀ p ∈ (Finset.univ : Finset Pixel), min_field f ≤ f p :=
    fun p _ => Finset.inf'_le f (Finset.mem_univ p)
  have hsum := Finset.card_nsmul_le_sum Finset.univ f (min_field f) h
  rw [card_pixel, nsmul_eq_mul] at hsum
  push_cast at hsum
  rw [mean_field, le_div_iff₀ (by norm_num : (0 : ℝ) < 128 * 128)]
  linarith

theorem mean_field_le_max_field (f : Field128) : mean_field f ≤ max_field f := by
  have h : ∀ p ∈ (Finset.univ : Finset Pixel), f p ≤ max_field f :=
    fun p _ => Finset.le_sup' f (Finset.mem_univ p)
  have hsum := Finset.sum_le_card_nsmul Finset.univ f (max_field f) h
  rw [card_pixel, nsmul_eq_mul] at hsum
  push_cast at hsum
  rw [mean_field, div_le_iff₀ (by norm_num : (0 : ℝ) < 128 * 128)]
  linarith

theorem normalized_activity_const (c : ℝ) : normalized_activity (fun _ => c) = 0 := by
  have hmean : mean_field (fun _ => c) = c := by
    rw [mean_field, Finset.sum_const, card_pixel, nsmul_eq_mul]
    push_cast
    field_simp
    ring
  have hmin : min_field (fun _ => c) = c := by
    rw [min_field, Finset.inf'_const]
  rw [normalized_activity, hmean, hmin, sub_self, zero_div]

end EnvPredictor

namespace EnvPredictor

set_option maxHeartbeats 1600000

/-! ## Claim theorems -/

/-- Claim C1, counterexample: the region classifier applied to latitude 40.7
and longitude -74.0 does NOT return Urban. Under the ordered first-match-wins
cascade the temperate-forest band (40 < lat < 60 and -130 < lon < -70)
matches before the major-city Urban rule is ever reached. -/
theorem classify_nyc_not_urban :
    determine_region_type 40.7 (-74.0) ≠ RegionType.URBAN := by
  rw [region_at_nyc]
  decide

/-- Claim C1, amended: the region classifier applied to latitude 40.7 and
longitude -74.0 returns ForestTemperate, because the temperate-forest band
(40 < lat < 60 and -130 < lon < -70) precedes the NYC city-box rule in the
first-match-wins cascade and shadows it. -/
theorem classify_nyc_forest_temperate :
    determine_region_type 40.7 (-74.0) = RegionType.FOREST_TEMPERATE := region_at_nyc

/-- Claim C8: the region classifier applied to latitude 27 and longitude 0
returns Desert; longitude 0 is excluded from the strict open equatorial ocean
bands, so the ocean rule (checked first) does not match, while the desert band
15 < lat < 30, -10 < lon < 50 does. -/
theorem classify_27_0_desert :
    determine_region_type 27 0 = RegionType.DESERT ∧
    ¬ ocean_cond 27 0 ∧ desert_cond 27 0 := by
  refine ⟨?_, ?_, ?_⟩
  · norm_num [determine_region_type, ocean_cond, desert_cond, abs_lt, lt_abs]
  · norm_num [ocean_cond, abs_lt]
  · norm_num [desert_cond]

/-- Claim C7: the temporal adjustment step computes the adjusted temperature
as baseline plus (season temp shift + diurnal temp shift) * (1 + 0.1 *
seasonal_sin), clamps adjusted humidity (baseline + season shift + diurnal
shift) to [10, 100], and multiplies the pollution baselines by the product of
season and diurnal pollution factors, with the extra multiplier for VOC of
1.2 when the region is Urban else 1.1, for PM2.5 of 1.3 when Urban else 1.2,
and for PM10 of 1.4 when Urban else 1.2, while PM1.0 and CO2 get only the
combined factor. -/
theorem temporal_adjustment_formulas (base : BaseValues) (dt : DT) (region : RegionType) :
    (apply_temporal_adjustments base dt region).temperature =
      base.temperature +
        (season_temp_shift (season_of dt.month) region +
          diurnal_temp_shift (time_of_day_of dt.hour) region) * (1 + 0.1 * seasonal_sin dt) ∧
    (apply_temporal_adjustments base dt region).humidity =
      min 100 (max 10 (base.humidity +
        (season_humidity_shift (season_of dt.month) region +
          diurnal_humidity_shift (time_of_day_of dt.hour) region))) ∧
    (apply_temporal_adjustments base dt region).CO2 =
      base.CO2 * (season_pollution_factor (season_of dt.month) region *
        diurnal_pollution_factor (time_of_day_of dt.hour) region) ∧
    (apply_temporal_adjustments base dt region).VOC =
      base.VOC * ((season_pollution_factor (season_of dt.month) region *
        diurnal_pollution_factor (time_of_day_of dt.hour) region) *
        (if region = RegionType.URBAN then 1.2 else 1.1)) ∧
    (apply_temporal_adjustments base dt region).PM1_0 =
      base.PM1_0 * (season_pollution_factor (season_of dt.month) region *
        diurnal_pollution_factor (time_of_day_of dt.hour) region) ∧
    (apply_temporal_adjustments base dt region).PM2_5 =
      base.PM2_5 * ((season_pollution_factor (season_of dt.month) region *
        diurnal_pollution_factor (time_of_day_of dt.hour) region) *
        (if region = RegionType.URBAN then 1.3 else 1.2)) ∧
    (apply_temporal_adjustments base dt region).PM10 =
      base.PM10 * ((season_pollution_factor (season_of dt.month) region *
        diurnal_pollution_factor (time_of_day_of dt.hour) region) *
        (if region = RegionType.URBAN then 1.4 else 1.2)) :=
  ⟨rfl, rfl, rfl, rfl, rfl, rfl, rfl⟩

/-- Claim C4: for every model output field, the normalized activity
(mean - min) / (max - min + 1e-7) lies within [0, 1], the denominator is
never zero, and a constant field yields activity 0. -/
theorem normalized_activity_unit_interval :
    (∀ f : Field128, 0 ≤ normalized_activity f ∧ normalized_activity f ≤ 1 ∧
      max_field f - min_field f + 1e-7 ≠ 0) ∧
    ∀ c : ℝ, normalized_activity (fun _ => c) = 0 := by
  constructor
  · intro f
    have h1 := min_field_le_mean_field f
    have h2 := mean_field_le_max_field f
    have heps : (0 : ℝ) < 1e-7 := by norm_num
    have hd : 0 < max_field f - min_field f + 1e-7 := by linarith
    refine ⟨?_, ?_, ne_of_gt hd⟩
    · rw [normalized_activity]
      exact div_nonneg (by linarith) (le_of_lt hd)
    · rw [normalized_activity, div_le_one hd]
      linarith
  · exact normalized_activity_const

/-- Claim C5: with the noise injection fixed to zero and the opaque model a
fixed deterministic function, predict is a pure function: two calls with
identical date, latitude, longitude and time inputs return identical
outputs. -/
theorem predict_deterministic (model : Model) (d1 d2 : String)
    (lat1 lat2 lon1 lon2 : ℚ) (t1 t2 : Option String)
    (hd : d1 = d2) (hlat : lat1 = lat2) (hlon : lon1 = lon2) (ht : t1 = t2) :
    predict model zero_draw d1 lat1 lon1 t1 = predict model zero_draw d2 lat2 lon2 t2 := by
  subst hd
  subst hlat
  subst hlon
  subst ht
  rfl

/-- Witness for C5 at a concrete input. -/
theorem predict_deterministic_witness :
    ("20250101" : String) = "20250101" ∧ (0 : ℚ) = 0 ∧ (10 : ℚ) = 10 ∧
    (some "00:00" : Option String) = some "00:00" ∧
    predict zero_model zero_draw "20250101" 0 10 (some "00:00") =
      predict zero_model zero_draw "20250101" 0 10 (some "00:00") :=
  ⟨rfl, rfl, rfl, rfl,
    predict_deterministic zero_model _ _ _ _ _ _ _ _ rfl rfl rfl rfl⟩

/-- Claim C6: in every successful final result, the particulate values
PM1.0, PM2.5, PM10 (after noise injection, the post-noise floor at 0, and
the multiplicative urban/rural calibration) are never negative, for every
model, noise draw, timestamp and location. -/
theorem pm_values_nonneg (model : Model) (draw : NoiseDraw) (dt : DT) (lat lon : ℚ) :
    0 ≤ (predict_ok model draw dt lat lon).values.pm1_0 ∧
    0 ≤ (predict_ok model draw dt lat lon).values.pm2_5 ∧
    0 ≤ (predict_ok model draw dt lat lon).values.pm10 := by
  refine ⟨?_, ?_, ?_⟩ <;>
    simp only [predict_ok, apply_physics_constraints, calculate_enhanced_values] <;>
    apply mul_nonneg (le_max_left 0 _) <;>
    split <;> norm_num

/-- Claim C10: with noise fixed to 0, the temperature reported under BME688
equals the temperature reported under MCP9808 in every successful final
result: both are the same sigmoid scaling and both receive the same
elevation subtraction. -/
theorem bme_mcp_temperature_equal (model : Model) (dt : DT) (lat lon : ℚ) :
    (predict_ok model zero_draw dt lat lon).values.bme_temperature =
    (predict_ok model zero_draw dt lat lon).values.mcp_temperature := rfl

/-- Claim C9: whenever the date/time strings fail to parse under the
"YYYYMMDD HH:MM" format, predict returns the tagged error value (the record
with its error and message fields) rather than raising across the public
boundary. -/
theorem predict_malformed_returns_error (model : Model) (draw : NoiseDraw)
    (date_str : String) (lat lon : ℚ) (time_str : Option String)
    (h : parse_datetime date_str time_str = none) :
    ∃ e m, predict model draw date_str lat lon time_str = PredictResult.error e m := by
  refine ⟨parse_error_text, parse_error_message, ?_⟩
  simp only [predict, h]

/-- Witness for C9 at a concrete malformed input. -/
theorem predict_malformed_witness :
    parse_datetime "2025" none = none ∧
    ∃ e m, predict zero_model zero_draw "2025" 0 0 none = PredictResult.error e m :=
  ⟨by decide, predict_malformed_returns_error zero_model zero_draw _ 0 0 none (by decide)⟩

end EnvPredictor

namespace EnvPredictor

/-! ## Noise-bound helpers for the humidity/pressure range analysis -/

theorem add_sensor_noise_bounds (v u rel amin : ℝ) (hu : |u| ≤ 1) (hv : 0 ≤ v)
    (ham : 0 ≤ amin) :
    v - max (v * rel) amin ≤ add_sensor_noise v u rel amin ∧
    add_sensor_noise v u rel amin ≤ v + max (v * rel) amin := by
  rw [add_sensor_noise, abs_of_nonneg hv]
  have hM : 0 ≤ max (v * rel) amin := le_trans ham (le_max_right _ _)
  have habs : |u * max (v * rel) amin| ≤ max (v * rel) amin := by
    rw [abs_mul, abs_of_nonneg hM]
    exact mul_le_of_le_one_left hM hu
  obtain ⟨hl, hr⟩ := abs_le.mp habs
  constructor <;> linarith

theorem humidity_bounds_aux (c u : ℝ) (hc1 : 10 ≤ c) (hc2 : c ≤ 100) (hu : |u| ≤ 1) :
    9.9 ≤ add_sensor_noise c u 0.005 0.1 ∧ add_sensor_noise c u 0.005 0.1 ≤ 100.5 := by
  obtain ⟨hl, hr⟩ := add_sensor_noise_bounds c u 0.005 0.1 hu (by linarith) (by norm_num)
  rcases le_total (c * 0.005) 0.1 with h | h
  · rw [max_eq_right h] at hl hr
    constructor <;> linarith
  · rw [max_eq_left h] at hl hr
    constructor <;> linarith

theorem humidity_clamped_noise_bounds (a u : ℝ) (hu : |u| ≤ 1) :
    9.9 ≤ add_sensor_noise (min 100 (max 10 a)) u 0.005 0.1 ∧
    add_sensor_noise (min 100 (max 10 a)) u 0.005 0.1 ≤ 100.5 := by
  have hc1 : (10 : ℝ) ≤ min 100 (max 10 a) := le_min (by norm_num) (le_max_left _ _)
  have hc2 : min (100 : ℝ) (max 10 a) ≤ 100 := min_le_left _ _
  exact humidity_bounds_aux _ u hc1 hc2 hu

theorem pressure_bounds_aux (c u : ℝ) (hc1 : 950 ≤ c) (hc2 : c ≤ 1050) (hu : |u| ≤ 1) :
    949.05 ≤ add_sensor_noise c u 0.001 0.1 ∧ add_sensor_noise c u 0.001 0.1 ≤ 1051.05 := by
  obtain ⟨hl, hr⟩ := add_sensor_noise_bounds c u 0.001 0.1 hu (by linarith) (by norm_num)
  rcases le_total (c * 0.001) 0.1 with h | h
  · rw [max_eq_right h] at hl hr
    constructor <;> linarith
  · rw [max_eq_left h] at hl hr
    constructor <;> linarith

theorem pressure_clamped_noise_bounds (a u m : ℝ) (hu : |u| ≤ 1)
    (hm1 : 0.99987 ≤ m) (hm2 : m ≤ 1) :
    948.9 ≤ add_sensor_noise (max 950 (min 1050 a)) u 0.001 0.1 * m ∧
    add_sensor_noise (max 950 (min 1050 a)) u 0.001 0.1 * m ≤ 1051.05 := by
  have hc1 : (950 : ℝ) ≤ max 950 (min 1050 a) := le_max_left _ _
  have hc2 : max (950 : ℝ) (min 1050 a) ≤ 1050 :=
    max_le (by norm_num) (min_le_left _ _)
  obtain ⟨hl, hr⟩ := pressure_bounds_aux _ u hc1 hc2 hu
  constructor
  · nlinarith
  · nlinarith

theorem valid_zero_draw : ValidDraw zero_draw := by
  refine ⟨?_, ?_, ?_, ?_, ?_, ?_, ?_, ?_, ?_, ?_⟩ <;> simp [zero_draw]

end EnvPredictor

namespace EnvPredictor

/-- Claim C2, amended: noise is injected after the humidity and pressure
clamps and the pressure is then scaled by the elevation correction, so the
final humidity lies in [9.9, 100.5] (not [10, 100]) and the final pressure
lies in [948.9, 1051.05] (not [950, 1050]), for every model, valid noise
draw, timestamp and location. -/
theorem humidity_pressure_amended_bounds (model : Model) (draw : NoiseDraw)
    (dt : DT) (lat lon : ℚ) (h : ValidDraw draw) :
    9.9 ≤ (predict_ok model draw dt lat lon).values.bme_humidity ∧
    (predict_ok model draw dt lat lon).values.bme_humidity ≤ 100.5 ∧
    948.9 ≤ (predict_ok model draw dt lat lon).values.bme_pressure ∧
    (predict_ok model draw dt lat lon).values.bme_pressure ≤ 1051.05 := by
  obtain ⟨ef1, ef2⟩ := elevation_factor_bounds lat lon
  have hm1 : (0.99987 : ℝ) ≤ 1 - elevation_factor lat lon * 0.00012 := by nlinarith
  have hm2 : 1 - elevation_factor lat lon * 0.00012 ≤ 1 := by nlinarith
  have hhum := humidity_clamped_noise_bounds
    ((apply_temporal_adjustments (regional_base_values (determine_region_type lat lon)) dt
      (determine_region_type lat lon)).humidity +
      normalized_activity (model (generate_synthetic_patch lat lon dt)).1 * 50)
    draw.uHum h.2.1
  have hpress := pressure_clamped_noise_bounds
    ((apply_temporal_adjustments (regional_base_values (determine_region_type lat lon)) dt
      (determine_region_type lat lon)).pressure -
      normalized_activity (model (generate_synthetic_patch lat lon dt)).1 * 5)
    draw.uPress (1 - elevation_factor lat lon * 0.00012) h.2.2.1 hm1 hm2
  exact ⟨hhum.1, hhum.2, hpress.1, hpress.2⟩

/-- Witness for the amended C2 at a concrete input. -/
theorem humidity_pressure_amended_witness :
    ValidDraw zero_draw ∧
    (9.9 ≤ (predict_ok zero_model zero_draw ⟨2025, 1, 1, 0, 0⟩ 40 (-110)).values.bme_humidity ∧
     (predict_ok zero_model zero_draw ⟨2025, 1, 1, 0, 0⟩ 40 (-110)).values.bme_humidity ≤ 100.5 ∧
     948.9 ≤ (predict_ok zero_model zero_draw ⟨2025, 1, 1, 0, 0⟩ 40 (-110)).values.bme_pressure ∧
     (predict_ok zero_model zero_draw ⟨2025, 1, 1, 0, 0⟩ 40 (-110)).values.bme_pressure ≤ 1051.05) :=
  ⟨valid_zero_draw,
    humidity_pressure_amended_bounds zero_model zero_draw ⟨2025, 1, 1, 0, 0⟩ 40 (-110)
      valid_zero_draw⟩

end EnvPredictor

namespace EnvPredictor

/-- Claim C2, counterexample: a successful call to predict whose final
BME688 pressure is strictly below 950. At latitude 40, longitude -110 the
region is Mountain with baseline pressure 900; the clamp raises it to 950,
and the elevation correction multiplies by 1 - 0.5 * 0.00012, giving
949.943 < 950 even with all noise deviates zero. -/
theorem pressure_below_950_counterexample :
    predict zero_model zero_draw "20250101" 40 (-110) (some "00:00") =
      PredictResult.ok (predict_ok zero_model zero_draw ⟨2025, 1, 1, 0, 0⟩ 40 (-110)) ∧
    (predict_ok zero_model zero_draw ⟨2025, 1, 1, 0, 0⟩ 40 (-110)).values.bme_pressure < 950 := by
  constructor
  · have hp : parse_datetime "20250101" (some "00:00") = some ⟨2025, 1, 1, 0, 0⟩ := by decide
    simp only [predict, hp]
  · have hnm : normalized_activity
        (zero_model (generate_synthetic_patch 40 (-110) ⟨2025, 1, 1, 0, 0⟩)).1 = 0 :=
      normalized_activity_const 0
    have hpress : (predict_ok zero_model zero_draw ⟨2025, 1, 1, 0, 0⟩ 40 (-110)).values.bme_pressure =
        add_sensor_noise (max 950 (min 1050
          ((apply_temporal_adjustments
            (regional_base_values (determine_region_type 40 (-110))) ⟨2025, 1, 1, 0, 0⟩
            (determine_region_type 40 (-110))).pressure -
            normalized_activity
              (zero_model (generate_synthetic_patch 40 (-110) ⟨2025, 1, 1, 0, 0⟩)).1 * 5)))
          zero_draw.uPress 0.001 0.1 * (1 - elevation_factor 40 (-110) * 0.00012) := rfl
    rw [hpress, hnm, region_at_40_m110, efactor_at_40_m110]
    have hadj : (apply_temporal_adjustments (regional_base_values RegionType.MOUNTAIN)
        ⟨2025, 1, 1, 0, 0⟩ RegionType.MOUNTAIN).pressure = 900 := by
      norm_num [apply_temporal_adjustments, regional_base_values]
    rw [hadj]
    rw [show (900 : ℝ) - 0 * 5 = 900 by norm_num]
    rw [min_eq_right (by norm_num : (900 : ℝ) ≤ 1050)]
    rw [max_eq_left (by norm_num : (900 : ℝ) ≤ 950)]
    rw [add_sensor_noise]
    rw [show zero_draw.uPress = 0 from rfl]
    norm_num

end EnvPredictor

namespace EnvPredictor

/-! ## Clip and patch-field helpers -/

theorem clip_bounds_unit (x : ℝ) : 0.1 ≤ clip x 0.1 1.0 ∧ clip x 0.1 1.0 ≤ 1.0 := by
  rw [clip]
  exact ⟨le_min (by norm_num) (le_max_left _ _), min_le_left _ _⟩

theorem clip_eq_hi (x : ℝ) (h : 1.0 ≤ x) : clip x 0.1 1.0 = 1.0 := by
  rw [clip, max_eq_right (le_trans (by norm_num) h), min_eq_left h]

theorem clip_mul_ef_bounds (lat lon : ℚ) (e : ℝ) :
    0.1 * elevation_factor lat lon ≤ clip e 0.1 1.0 * elevation_factor lat lon ∧
    clip e 0.1 1.0 * elevation_factor lat lon ≤ 1.0 * elevation_factor lat lon ∧
    0.05 ≤ clip e 0.1 1.0 * elevation_factor lat lon ∧
    clip e 0.1 1.0 * elevation_factor lat lon ≤ 1.01 := by
  obtain ⟨hc1, hc2⟩ := clip_bounds_unit e
  obtain ⟨hef1, hef2⟩ := elevation_factor_bounds lat lon
  have hef0 : 0 ≤ elevation_factor lat lon := by linarith
  refine ⟨?_, ?_, ?_, ?_⟩
  · exact mul_le_mul_of_nonneg_right hc1 hef0
  · exact mul_le_mul_of_nonneg_right hc2 hef0
  · nlinarith
  · nlinarith

/-- Claim C3, amended: the clamp to [0.1, 1.0] is applied before the
elevation attenuation, so every element of the final unweighted frame lies
in [0.1 * f, 1.0 * f] for the elevation factor f = 1 - min(1, elevation/5000)
of the location, hence within [0.05, 1.01] over all regions, but not always
within [0.1, 1.0]. -/
theorem patch_field_elevation_bounds (lat lon : ℚ) (dt : DT) (i j : ℕ) :
    0.1 * elevation_factor lat lon ≤ patch_value lat lon dt i j ∧
    patch_value lat lon dt i j ≤ 1.0 * elevation_factor lat lon ∧
    0.05 ≤ patch_value lat lon dt i j ∧
    patch_value lat lon dt i j ≤ 1.01 :=
  clip_mul_ef_bounds lat lon _

/-! ## Concrete temporal and pixel evaluations for the C3 counterexample -/

theorem year_progress_jan1 : year_progress ⟨2025, 1, 1, 0, 0⟩ = 0 := by
  rw [year_progress]
  norm_num [day_of_year]

theorem seasonal_sin_jan1 : seasonal_sin ⟨2025, 1, 1, 0, 0⟩ = 0 := by
  rw [seasonal_sin, year_progress_jan1, mul_zero, Real.sin_zero]

theorem seasonal_cos_jan1 : seasonal_cos ⟨2025, 1, 1, 0, 0⟩ = 1 := by
  rw [seasonal_cos, year_progress_jan1, mul_zero, Real.cos_zero]

theorem diurnal_progress_midnight : diurnal_progress ⟨2025, 1, 1, 0, 0⟩ = 0 := by
  rw [diurnal_progress]
  norm_num

theorem diurnal_sin_midnight : diurnal_sin ⟨2025, 1, 1, 0, 0⟩ = 0 := by
  rw [diurnal_sin, diurnal_progress_midnight, mul_zero, Real.sin_zero]

theorem diurnal_cos_midnight : diurnal_cos ⟨2025, 1, 1, 0, 0⟩ = 1 := by
  rw [diurnal_cos, diurnal_progress_midnight, mul_zero, Real.cos_zero]

theorem linspace_63 : linspace128 63 = -(1 / 127) := by
  rw [linspace128]
  push_cast
  norm_num

theorem pixel_dist_63 : pixel_dist 63 63 = 1 / 127 := by
  rw [pixel_dist, linspace_63]
  rw [show (-(1 / 127) : ℝ) ^ 2 + (-(1 / 127)) ^ 2 = 2 * (1 / 127) ^ 2 by ring]
  rw [Real.sqrt_mul (by norm_num : (0 : ℝ) ≤ 2),
    Real.sqrt_sq (by norm_num : (0 : ℝ) ≤ 1 / 127)]
  rw [mul_comm, mul_div_assoc,
    div_self (Real.sqrt_ne_zero'.mpr (by norm_num : (0 : ℝ) < 2)), mul_one]

end EnvPredictor

namespace EnvPredictor

/-- Claim C3, counterexample: an element of the final unweighted frame that
exceeds 1.0. At the ocean point (0, 10) on 2025-01-01 00:00, the centre
pixel (63, 63) is clipped to 1.0 and then multiplied by the ocean elevation
factor 1.01 (elevation -50 m), giving 1.01 > 1.0. -/
theorem patch_exceeds_one_counterexample :
    1 < patch_value 0 10 ⟨2025, 1, 1, 0, 0⟩ 63 63 := by
  have hval : patch_value 0 10 ⟨2025, 1, 1, 0, 0⟩ 63 63 =
      clip (shape_pattern (determine_region_type 0 10) (pixel_dist 63 63) *
        (1 + seasonal_effect_mult (determine_region_type 0 10) *
          (0.5 * seasonal_sin ⟨2025, 1, 1, 0, 0⟩ + 0.2 * seasonal_cos ⟨2025, 1, 1, 0, 0⟩)) *
        (1 + diurnal_effect_mult (determine_region_type 0 10) *
          (0.3 * diurnal_sin ⟨2025, 1, 1, 0, 0⟩ + 0.1 * diurnal_cos ⟨2025, 1, 1, 0, 0⟩) * 0.5))
        0.1 1.0 * elevation_factor 0 10 := rfl
  rw [hval, region_at_0_10, efactor_at_0_10, seasonal_sin_jan1, seasonal_cos_jan1,
    diurnal_sin_midnight, diurnal_cos_midnight, pixel_dist_63]
  rw [show shape_pattern RegionType.OCEAN (1 / 127) =
      0.3 + 0.7 * Real.exp (-(1 / 127) * 3) from rfl]
  rw [show seasonal_effect_mult RegionType.OCEAN = 0.7 from rfl]
  rw [show diurnal_effect_mult RegionType.OCEAN = 0.5 from rfl]
  have hE : (1 : ℝ) - 3 / 127 ≤ Real.exp (-(1 / 127) * 3) := by
    have h := Real.add_one_le_exp (-(1 / 127) * 3)
    linarith
  have hA : (1.0 : ℝ) ≤ (0.3 + 0.7 * Real.exp (-(1 / 127) * 3)) *
      (1 + 0.7 * (0.5 * 0 + 0.2 * 1)) * (1 + 0.5 * (0.3 * 0 + 0.1 * 1) * 0.5) := by
    nlinarith [hE]
  rw [clip_eq_hi _ hA]
  norm_num

end EnvPredictor
